import Mathlib

/-!
Verification of the webhook core of `homebridge-smartthings-webhook`:
a shallow embedding of the crash-loop detector (`CrashLoopManager`),
the SmartApp lifecycle handler (`SmartAppHandler`) and the webhook
server request path (`WebhookServer.handleSmartAppRequest`), together
with theorems settling the specified properties.

Conventions of the embedding:
- TypeScript `string | null` fields become `Option String`; JavaScript
  truthiness of a string (`"" `is falsy) is modelled by `jsTruthy` /
  `jsStr`.
- Timestamps (`Date.now()` milliseconds) are `Int`.
- Outbound network effects are recorded as a `List RemoteCall`; the
  remote platform's answers are an explicit oracle `RemoteEnv`.
- Durable storage (the credentials JSON file) is an explicit
  `Option StoredCredentials` field threaded through the state.
-/

namespace STW

/-! ## CrashLoopManager (crash-loop detector) -/

/-- One entry of the durable crash log: `{ timestamp: number, errorType: string }`. -/
structure CrashEvent where
  timestamp : Int
  errorType : String
deriving DecidableEq, Repr

/-- Configuration for loop detection, mirroring `CrashLoopConfig`. -/
structure CrashLoopConfig where
  maxCrashes : Nat
  timeWindowMinutes : Nat
  relevantErrorTypes : List String
deriving DecidableEq, Repr

/-- `MAX_LOG_ENTRIES = 20`. -/
def MAX_LOG_ENTRIES : Nat := 20

/-- The pruning performed by `writeCrashLog`: if the log exceeds
`MAX_LOG_ENTRIES`, keep only the last `MAX_LOG_ENTRIES` entries
(`logData.slice(logData.length - MAX_LOG_ENTRIES)`). Returns the list
actually written to disk. -/
def writeCrashLog (logData : List CrashEvent) : List CrashEvent :=
  if logData.length > MAX_LOG_ENTRIES then
    logData.drop (logData.length - MAX_LOG_ENTRIES)
  else
    logData

/-- `recordPotentialCrash`: read the log, append `{timestamp: Date.now(), errorType}`,
write it back (pruned). `now` is the value of `Date.now()` at the call. -/
def recordPotentialCrash (crashes : List CrashEvent) (now : Int) (errorType : String) :
    List CrashEvent :=
  writeCrashLog (crashes ++ [⟨now, errorType⟩])

/-- The filter of `isCrashLoopDetected`: entries in the trailing time
window that have a relevant error type (any type when the relevant set
is empty). -/
def relevantRecentCrashes (crashes : List CrashEvent) (config : CrashLoopConfig)
    (now : Int) : List CrashEvent :=
  crashes.filter fun crash =>
    decide (now - crash.timestamp ≤ (config.timeWindowMinutes : Int) * 60 * 1000) &&
      (config.relevantErrorTypes.isEmpty || config.relevantErrorTypes.contains crash.errorType)

/-- `isCrashLoopDetected`: returns `false` on an empty log, otherwise
counts recent relevant crashes and compares against `maxCrashes`. -/
def isCrashLoopDetected (crashes : List CrashEvent) (config : CrashLoopConfig)
    (now : Int) : Bool :=
  if crashes.isEmpty then
    false
  else
    decide ((relevantRecentCrashes crashes config now).length ≥ config.maxCrashes)

/-- `defaultCrashLoopConfig` from the source. -/
def defaultCrashLoopConfig : CrashLoopConfig :=
  { maxCrashes := 5
    timeWindowMinutes := 15
    relevantErrorTypes := ["API_INIT_FAILURE", "DEVICE_HEALTH_FAILURE", "TOKEN_REFRESH_FAILURE"] }

/-! ## SmartAppHandler data model -/

/-- JavaScript truthiness of an optional string field: `null`, `undefined`
and `""` are falsy. -/
def jsTruthy : Option String → Bool
  | some s => !(s == "")
  | none => false

/-- `value || null` on an optional string read back from JSON:
a missing value or the empty string becomes `null`. -/
def jsStr : Option String → Option String
  | some s => if s == "" then none else some s
  | none => none

/-- `installedApp` object carried by INSTALL/UPDATE/EVENT payloads. -/
structure InstalledApp where
  installedAppId : String
  locationId : String
deriving DecidableEq, Repr

/-- `pingData` payload. -/
structure PingData where
  challenge : String
deriving DecidableEq, Repr

/-- `confirmationData` payload. -/
structure ConfirmationData where
  appId : String
  confirmationUrl : String
deriving DecidableEq, Repr

/-- `configurationData` payload (the fields the handler inspects). -/
structure ConfigurationData where
  installedAppId : String
  phase : String
  pageId : Option String
deriving DecidableEq, Repr

/-- `installData` payload. -/
structure InstallData where
  authToken : String
  refreshToken : String
  installedApp : InstalledApp
deriving DecidableEq, Repr

/-- `updateData` payload (previousConfig/previousPermissions are unused). -/
structure UpdateData where
  authToken : String
  refreshToken : String
  installedApp : InstalledApp
deriving DecidableEq, Repr

/-- A device state event (`deviceEvent`), the fields the handler reads. -/
structure DeviceEventData where
  deviceId : String
  componentId : String
  capability : String
  «attribute» : String
  value : String
deriving DecidableEq, Repr

/-- A device lifecycle event (`deviceLifecycleEvent`). The `lifecycle`
discriminant is runtime string data (CREATE, DELETE, UPDATE, MOVE_FROM, MOVE_TO). -/
structure DeviceLifecycleEventData where
  lifecycle : String
  deviceId : String
  deviceName : Option String
deriving DecidableEq, Repr

/-- One element of `eventData.events`. `eventType` is runtime string data. -/
structure SmartThingsEvent where
  eventType : String
  deviceEvent : Option DeviceEventData
  deviceLifecycleEvent : Option DeviceLifecycleEventData
deriving DecidableEq, Repr

/-- `eventData` payload. -/
structure EventData where
  authToken : String
  installedApp : InstalledApp
  events : List SmartThingsEvent
deriving DecidableEq, Repr

/-- A SmartApp lifecycle request. The `lifecycle` discriminant is kept as
runtime string data so that unknown lifecycles reach the default branch. -/
structure SmartAppRequest where
  lifecycle : String
  appId : Option String
  pingData : Option PingData
  confirmationData : Option ConfirmationData
  configurationData : Option ConfigurationData
  installData : Option InstallData
  updateData : Option UpdateData
  eventData : Option EventData
deriving DecidableEq, Repr

/-- The durable credentials record written by `saveCredentials`
(`smartapp_credentials.json`; `savedAt` is ignored). -/
structure StoredCredentials where
  installedAppId : Option String
  authToken : Option String
  refreshToken : Option String
  locationId : Option String
deriving DecidableEq, Repr

/-- The mutable state of `SmartAppHandler`, with the durable credentials
file made explicit as `stored`. -/
structure HandlerState where
  installedAppId : Option String
  authToken : Option String
  refreshToken : Option String
  locationId : Option String
  deviceIds : List String
  stored : Option StoredCredentials
deriving DecidableEq, Repr

/-- The normalized event forwarded to registered event handlers (`ShortEvent`). -/
structure ShortEvent where
  deviceId : String
  componentId : String
  capability : String
  «attribute» : String
  value : String
deriving DecidableEq, Repr

/-- One remote subscription as returned by the list call. `deviceId`
models `sub.device?.deviceId`. -/
structure RemoteSubscription where
  sourceType : String
  deviceId : Option String
deriving DecidableEq, Repr

/-- An outbound network call made by the handler. -/
inductive RemoteCall where
  | listSubscriptions
  | createDevice (deviceId : String)
  | createLifecycle
  | deleteAll
  | confirmFetch (url : String)
deriving DecidableEq, Repr

/-- Outcome of one remote subscription-create call. -/
inductive CreateResult where
  | ok
  | conflict
  | err (code : Nat)
deriving DecidableEq, Repr

/-- Oracle for the remote platform's answers to outbound calls. -/
structure RemoteEnv where
  listResult : Option (List RemoteSubscription)
  createResult : String → CreateResult
  lifecycleCreateResult : CreateResult
  confirmOk : Bool

/-- The payload part of a lifecycle response. -/
inductive ResponseData where
  | empty
  | ping (challenge : String)
  | configInit
  | configPage
  | install
  | update
  | event
  | uninstall
deriving DecidableEq, Repr

/-- A lifecycle response: the status code plus its data object. -/
structure SAResponse where
  statusCode : Nat
  data : ResponseData
deriving DecidableEq, Repr

/-- Everything one handled lifecycle request produces: the new handler
state, the response, the outbound calls, the `ShortEvent`s forwarded to
event handlers, and the (lifecycle, deviceId, deviceName) notifications
forwarded to device-lifecycle handlers. -/
structure HandlerOutcome where
  state : HandlerState
  response : SAResponse
  calls : List RemoteCall
  dispatched : List ShortEvent
  notifs : List (String × String × Option String)
deriving Repr

/-- Outcome with no side effects. -/
def emptyOutcome (st : HandlerState) (resp : SAResponse) : HandlerOutcome :=
  { state := st, response := resp, calls := [], dispatched := [], notifs := [] }

/-! ## SmartAppHandler operations -/

/-- `isInstalled()`: `installedAppId !== null && authToken !== null`. -/
def isInstalled (st : HandlerState) : Bool :=
  st.installedAppId.isSome && st.authToken.isSome

/-- `loadCredentials()`: if the credentials file exists, set each field to
`data.<field> || null`; otherwise leave the fields as they are. -/
def loadCredentials (st : HandlerState) : HandlerState :=
  match st.stored with
  | none => st
  | some r =>
      { st with
        installedAppId := jsStr r.installedAppId
        authToken := jsStr r.authToken
        refreshToken := jsStr r.refreshToken
        locationId := jsStr r.locationId }

/-- `saveCredentials()`: write the current in-memory fields to the
credentials file. -/
def saveCredentials (st : HandlerState) : HandlerState :=
  { st with
    stored := some
      { installedAppId := st.installedAppId
        authToken := st.authToken
        refreshToken := st.refreshToken
        locationId := st.locationId } }

/-- `clearCredentials()`: delete the credentials file. -/
def clearCredentials (st : HandlerState) : HandlerState :=
  { st with stored := none }

/-- The state of a freshly constructed handler before `loadCredentials`,
over a given durable file. -/
def freshState (stored : Option StoredCredentials) : HandlerState :=
  { installedAppId := none, authToken := none, refreshToken := none
    locationId := none, deviceIds := [], stored := stored }

/-- Process start: a new `SmartAppHandler` is constructed and loads the
persisted credentials file left by the previous process. -/
def restartState (st : HandlerState) : HandlerState :=
  loadCredentials (freshState st.stored)

/-- The initial state of the very first run: no credentials file yet. -/
def initialState : HandlerState := freshState none

/-- Projection of the subscription list performed by
`getExistingSubscriptions`: the device ids of entries with
`sourceType === 'DEVICE'` and a truthy `device.deviceId`. -/
def remoteDeviceIds (subs : List RemoteSubscription) : List String :=
  subs.filterMap fun sub =>
    if sub.sourceType == "DEVICE" then
      match sub.deviceId with
      | some d => if d == "" then none else some d
      | none => none
    else
      none

/-- `getExistingSubscriptions()`: empty set without credentials; on a
successful list call, the projected device-id set; on a failed list
call, the empty set (error is caught). Membership in the returned list
models membership in the JS `Set`. -/
def getExistingSubscriptions (st : HandlerState) (env : RemoteEnv) : List String :=
  if !jsTruthy st.installedAppId || !jsTruthy st.authToken then
    []
  else
    match env.listResult with
    | some subs => remoteDeviceIds subs
    | none => []

/-- `syncDeviceSubscriptions()`: guarded by credentials and a non-empty
registration; lists the existing subscriptions, then issues one create
call per registered device id missing from the remote set. -/
def syncDeviceSubscriptions (st : HandlerState) (env : RemoteEnv) : List RemoteCall :=
  if !jsTruthy st.installedAppId || !jsTruthy st.authToken then
    []
  else if st.deviceIds.isEmpty then
    []
  else
    let existing := getExistingSubscriptions st env
    let missing := st.deviceIds.filter fun id => !(decide (id ∈ existing))
    RemoteCall.listSubscriptions :: missing.map RemoteCall.createDevice

/-- `createDeviceSubscriptions()`: one create call per registered device
(no calls without credentials or with an empty registration). -/
def createDeviceSubscriptions (st : HandlerState) (_env : RemoteEnv) : List RemoteCall :=
  if !jsTruthy st.installedAppId || !jsTruthy st.authToken then
    []
  else
    st.deviceIds.map RemoteCall.createDevice

/-- Whether `createDeviceSubscription(deviceId)` completes without
throwing: a 409 conflict is logged and treated as success; only other
errors are re-thrown. -/
def createDeviceSubscriptionOk (env : RemoteEnv) (deviceId : String) : Bool :=
  match env.createResult deviceId with
  | CreateResult.err _ => false
  | _ => true

/-- `createDeviceLifecycleSubscription()`: one call when all of
installedAppId, authToken and locationId are truthy (its own 409 and
errors are swallowed). -/
def createDeviceLifecycleSubscription (st : HandlerState) (_env : RemoteEnv) :
    List RemoteCall :=
  if !jsTruthy st.installedAppId || !jsTruthy st.authToken || !jsTruthy st.locationId then
    []
  else
    [RemoteCall.createLifecycle]

/-- `deleteAllSubscriptions()`: one delete call when credentials are truthy. -/
def deleteAllSubscriptions (st : HandlerState) (_env : RemoteEnv) : List RemoteCall :=
  if !jsTruthy st.installedAppId || !jsTruthy st.authToken then
    []
  else
    [RemoteCall.deleteAll]

/-- `syncPendingSubscriptions()`: no-op unless installed with a non-empty
registration; otherwise missing-only sync plus the lifecycle subscription. -/
def syncPendingSubscriptions (st : HandlerState) (env : RemoteEnv) : List RemoteCall :=
  if !(isInstalled st) || st.deviceIds.isEmpty then
    []
  else
    syncDeviceSubscriptions st env ++ createDeviceLifecycleSubscription st env

/-! ## Lifecycle handlers -/

/-- `handlePing`: 400 when `request.pingData?.challenge` is falsy,
otherwise echo the challenge. Reads and writes no handler state. -/
def handlePing (req : SmartAppRequest) : SAResponse :=
  match req.pingData with
  | none => { statusCode := 400, data := ResponseData.empty }
  | some p =>
      if p.challenge == "" then
        { statusCode := 400, data := ResponseData.empty }
      else
        { statusCode := 200, data := ResponseData.ping p.challenge }

/-- `handleConfirmation`: 400 when the confirmation URL is falsy,
otherwise fetch it; 200 on success, 500 when the fetch throws. -/
def handleConfirmation (req : SmartAppRequest) (env : RemoteEnv) :
    SAResponse × List RemoteCall :=
  match req.confirmationData with
  | none => ({ statusCode := 400, data := ResponseData.empty }, [])
  | some c =>
      if c.confirmationUrl == "" then
        ({ statusCode := 400, data := ResponseData.empty }, [])
      else if env.confirmOk then
        ({ statusCode := 200, data := ResponseData.empty }, [RemoteCall.confirmFetch c.confirmationUrl])
      else
        ({ statusCode := 500, data := ResponseData.empty }, [RemoteCall.confirmFetch c.confirmationUrl])

/-- `handleConfiguration`: 400 without `configurationData`; static
INITIALIZE and PAGE responses; 200 with no data for any other phase. -/
def handleConfiguration (req : SmartAppRequest) : SAResponse :=
  match req.configurationData with
  | none => { statusCode := 400, data := ResponseData.empty }
  | some c =>
      if c.phase == "INITIALIZE" then
        { statusCode := 200, data := ResponseData.configInit }
      else if c.phase == "PAGE" then
        { statusCode := 200, data := ResponseData.configPage }
      else
        { statusCode := 200, data := ResponseData.empty }

/-- `handleInstall`: store the credentials from the payload, persist
them, create subscriptions for every registered device plus the
lifecycle subscription; respond 200. -/
def handleInstall (st : HandlerState) (req : SmartAppRequest) (env : RemoteEnv) :
    HandlerOutcome :=
  match req.installData with
  | none => emptyOutcome st { statusCode := 400, data := ResponseData.empty }
  | some d =>
      let st1 : HandlerState :=
        { st with
          installedAppId := some d.installedApp.installedAppId
          authToken := some d.authToken
          refreshToken := some d.refreshToken
          locationId := some d.installedApp.locationId }
      let st2 := saveCredentials st1
      { state := st2
        response := { statusCode := 200, data := ResponseData.install }
        calls := createDeviceSubscriptions st2 env ++ createDeviceLifecycleSubscription st2 env
        dispatched := []
        notifs := [] }

/-- `handleUpdate`: store the credentials, persist them, delete all
remote subscriptions, recreate device subscriptions plus the lifecycle
subscription; respond 200. -/
def handleUpdate (st : HandlerState) (req : SmartAppRequest) (env : RemoteEnv) :
    HandlerOutcome :=
  match req.updateData with
  | none => emptyOutcome st { statusCode := 400, data := ResponseData.empty }
  | some d =>
      let st1 : HandlerState :=
        { st with
          installedAppId := some d.installedApp.installedAppId
          authToken := some d.authToken
          refreshToken := some d.refreshToken
          locationId := some d.installedApp.locationId }
      let st2 := saveCredentials st1
      { state := st2
        response := { statusCode := 200, data := ResponseData.update }
        calls := deleteAllSubscriptions st2 env ++ createDeviceSubscriptions st2 env ++
          createDeviceLifecycleSubscription st2 env
        dispatched := []
        notifs := [] }

/-- Accumulator for the event loop of `handleEvent`. -/
structure EventAcc where
  deviceIds : List String
  calls : List RemoteCall
  dispatched : List ShortEvent
  notifs : List (String × String × Option String)
deriving Repr

/-- One iteration of the `for (const event of eventData.events)` loop. -/
def processOneEvent (env : RemoteEnv) (acc : EventAcc) (event : SmartThingsEvent) :
    EventAcc :=
  if event.eventType == "DEVICE_EVENT" then
    match event.deviceEvent with
    | some d =>
        { acc with
          dispatched := acc.dispatched ++
            [{ deviceId := d.deviceId, componentId := d.componentId,
               capability := d.capability, «attribute» := d.«attribute», value := d.value }] }
    | none => acc
  else if event.eventType == "DEVICE_LIFECYCLE_EVENT" then
    match event.deviceLifecycleEvent with
    | some le =>
        let acc1 :=
          if le.lifecycle == "CREATE" then
            let acc' := { acc with calls := acc.calls ++ [RemoteCall.createDevice le.deviceId] }
            if createDeviceSubscriptionOk env le.deviceId then
              { acc' with deviceIds := acc'.deviceIds ++ [le.deviceId] }
            else
              acc'
          else
            acc
        { acc1 with notifs := acc1.notifs ++ [(le.lifecycle, le.deviceId, le.deviceName)] }
    | none => acc
  else
    acc

/-- The event loop of `handleEvent`. -/
def processEvents (env : RemoteEnv) (acc : EventAcc) : List SmartThingsEvent → EventAcc
  | [] => acc
  | e :: rest => processEvents env (processOneEvent env acc e) rest

/-- `handleEvent`: 400 without `eventData`; otherwise refresh the
in-memory credentials from the payload (when the token is truthy),
running the pending sync when credentials were previously absent and
devices are registered, then process each event. Credentials are not
persisted here. -/
def handleEvent (st : HandlerState) (req : SmartAppRequest) (env : RemoteEnv) :
    HandlerOutcome :=
  match req.eventData with
  | none => emptyOutcome st { statusCode := 400, data := ResponseData.empty }
  | some ed =>
      let hadCredentialsBefore := isInstalled st
      let stCred : HandlerState :=
        if ed.authToken == "" then st
        else
          { st with
            authToken := some ed.authToken
            installedAppId := some ed.installedApp.installedAppId
            locationId := some ed.installedApp.locationId }
      let pendingCalls : List RemoteCall :=
        if !(ed.authToken == "") && !hadCredentialsBefore && !stCred.deviceIds.isEmpty then
          syncPendingSubscriptions stCred env
        else
          []
      let acc := processEvents env
        { deviceIds := stCred.deviceIds, calls := [], dispatched := [], notifs := [] }
        ed.events
      { state := { stCred with deviceIds := acc.deviceIds }
        response := { statusCode := 200, data := ResponseData.event }
        calls := pendingCalls ++ acc.calls
        dispatched := acc.dispatched
        notifs := acc.notifs }

/-- `handleUninstall`: clear the in-memory credentials and delete the
credentials file; respond 200. -/
def handleUninstall (st : HandlerState) (_req : SmartAppRequest) : HandlerOutcome :=
  let st1 : HandlerState :=
    { st with installedAppId := none, authToken := none, refreshToken := none, locationId := none }
  emptyOutcome (clearCredentials st1) { statusCode := 200, data := ResponseData.uninstall }

/-- `handleRequest`: dispatch on the lifecycle discriminant; any unknown
lifecycle is logged and answered with a bare 200. -/
def handleRequest (st : HandlerState) (req : SmartAppRequest) (env : RemoteEnv) :
    HandlerOutcome :=
  if req.lifecycle == "PING" then
    emptyOutcome st (handlePing req)
  else if req.lifecycle == "CONFIRMATION" then
    let rc := handleConfirmation req env
    { state := st, response := rc.1, calls := rc.2, dispatched := [], notifs := [] }
  else if req.lifecycle == "CONFIGURATION" then
    emptyOutcome st (handleConfiguration req)
  else if req.lifecycle == "INSTALL" then
    handleInstall st req env
  else if req.lifecycle == "UPDATE" then
    handleUpdate st req env
  else if req.lifecycle == "EVENT" then
    handleEvent st req env
  else if req.lifecycle == "UNINSTALL" then
    handleUninstall st req
  else
    emptyOutcome st { statusCode := 200, data := ResponseData.empty }

/-! ## WebhookServer request path -/

/-- The lifecycle endpoint (`handleSmartAppRequest`): a body that fails
to parse as JSON is answered 400 with no handler involvement; a parsed
request is checked against the configured app id (403 on mismatch) and
then handed to `handleRequest`. -/
def handleSmartAppRequest (st : HandlerState) (configuredAppId : Option String)
    (body : Option SmartAppRequest) (env : RemoteEnv) : HandlerOutcome :=
  match body with
  | none => emptyOutcome st { statusCode := 400, data := ResponseData.empty }
  | some req =>
      if jsTruthy configuredAppId && !(req.appId == configuredAppId) then
        emptyOutcome st { statusCode := 403, data := ResponseData.empty }
      else
        handleRequest st req env

/-! ## Reachable handler states -/

/-- An operation that can touch the handler state: one handled lifecycle
request, a `setDeviceIds` registration call, or a process restart. -/
inductive HandlerStep where
  | lifecycleMsg (req : SmartAppRequest) (env : RemoteEnv)
  | setDevices (ids : List String)
  | restart

/-- Apply one step to the handler state. -/
def applyStep (st : HandlerState) : HandlerStep → HandlerState
  | HandlerStep.lifecycleMsg req env => (handleRequest st req env).state
  | HandlerStep.setDevices ids => { st with deviceIds := ids }
  | HandlerStep.restart => restartState st

/-- Run a sequence of steps. -/
def runSteps (st : HandlerState) : List HandlerStep → HandlerState
  | [] => st
  | s :: rest => runSteps (applyStep st s) rest

/-! ## Derived notions used by the properties -/

/-- The number of subscription-create calls in a call list. -/
def createCallCount (calls : List RemoteCall) : Nat :=
  (calls.filter fun c =>
    match c with
    | RemoteCall.createDevice _ => true
    | _ => false).length

/-- The in-memory credential fields of a handler state, in the shape of
the durable record. -/
def memCredentials (st : HandlerState) : StoredCredentials :=
  { installedAppId := st.installedAppId
    authToken := st.authToken
    refreshToken := st.refreshToken
    locationId := st.locationId }

/-- A device-state item of an EVENT payload: the branch of the event
loop that dispatches a `ShortEvent`. -/
def isDeviceStateItem (e : SmartThingsEvent) : Bool :=
  e.eventType == "DEVICE_EVENT" && e.deviceEvent.isSome

/-- A device-lifecycle CREATE item of an EVENT payload: the branch of
the event loop that issues a subscription-create call. -/
def isLifecycleCreateItem (e : SmartThingsEvent) : Bool :=
  e.eventType == "DEVICE_LIFECYCLE_EVENT" &&
    (match e.deviceLifecycleEvent with
     | some le => le.lifecycle == "CREATE"
     | none => false)

/-- The paired-credentials property: `installedAppId` and `authToken`
are both absent, or both hold a non-empty string. -/
def CredsOk (a t : Option String) : Prop :=
  (a = none ∧ t = none) ∨ (∃ x y, a = some x ∧ t = some y ∧ x ≠ "" ∧ y ≠ "")

/-- Invariant over a handler state: paired credentials in memory, and
every persisted record loads back to paired credentials. -/
def StateInv (st : HandlerState) : Prop :=
  CredsOk st.installedAppId st.authToken ∧
    ∀ r, st.stored = some r → CredsOk (jsStr r.installedAppId) (jsStr r.authToken)

/-- A lifecycle request whose credential-bearing payloads carry
non-empty `authToken` and `installedAppId` strings. -/
def goodRequest (req : SmartAppRequest) : Prop :=
  (∀ d, req.installData = some d → d.authToken ≠ "" ∧ d.installedApp.installedAppId ≠ "") ∧
    (∀ d, req.updateData = some d → d.authToken ≠ "" ∧ d.installedApp.installedAppId ≠ "") ∧
    (∀ ed, req.eventData = some ed → ed.installedApp.installedAppId ≠ "")

/-- A step whose lifecycle message (if any) is a `goodRequest`. -/
def goodStep : HandlerStep → Prop
  | HandlerStep.lifecycleMsg req _ => goodRequest req
  | HandlerStep.setDevices _ => True
  | HandlerStep.restart => True

/-! ## Concrete inputs for witnesses and counterexamples -/

/-- A benign remote environment: list call fails closed, every create
succeeds, confirmation fetch succeeds. -/
def env0 : RemoteEnv :=
  { listResult := none, createResult := fun _ => CreateResult.ok
    lifecycleCreateResult := CreateResult.ok, confirmOk := true }

/-- A remote environment whose list call returns one DEVICE subscription
for device `d2`, with every create succeeding. -/
def envListD2 : RemoteEnv :=
  { listResult := some [{ sourceType := "DEVICE", deviceId := some "d2" }]
    createResult := fun _ => CreateResult.ok
    lifecycleCreateResult := CreateResult.ok, confirmOk := true }

/-- A request skeleton with no payloads. -/
def emptyRequest : SmartAppRequest :=
  { lifecycle := "", appId := none, pingData := none, confirmationData := none
    configurationData := none, installData := none, updateData := none, eventData := none }

/-- A PING request carrying the challenge `abc`. -/
def pingRequest : SmartAppRequest :=
  { emptyRequest with lifecycle := "PING", pingData := some { challenge := "abc" } }

/-- A well-formed INSTALL request. -/
def installRequest : SmartAppRequest :=
  { emptyRequest with
    lifecycle := "INSTALL"
    installData := some
      { authToken := "tok", refreshToken := "ref"
        installedApp := { installedAppId := "app-1", locationId := "loc-1" } } }

/-- An INSTALL request whose `installedAppId` is the empty string. -/
def badInstallRequest : SmartAppRequest :=
  { emptyRequest with
    lifecycle := "INSTALL"
    installData := some
      { authToken := "tok", refreshToken := "ref"
        installedApp := { installedAppId := "", locationId := "loc-1" } } }

/-- An EVENT request carrying fresh credentials and no events. -/
def eventOnlyRequest : SmartAppRequest :=
  { emptyRequest with
    lifecycle := "EVENT"
    eventData := some
      { authToken := "tok"
        installedApp := { installedAppId := "app-1", locationId := "loc-1" }
        events := [] } }

/-- A device-state event item for device `d`. -/
def stateItem (d : String) : SmartThingsEvent :=
  { eventType := "DEVICE_EVENT"
    deviceEvent := some
      { deviceId := d, componentId := "main", capability := "switch"
        «attribute» := "switch", value := "on" }
    deviceLifecycleEvent := none }

/-- A device-lifecycle CREATE item for device `d`. -/
def createItem (d : String) : SmartThingsEvent :=
  { eventType := "DEVICE_LIFECYCLE_EVENT"
    deviceEvent := none
    deviceLifecycleEvent := some { lifecycle := "CREATE", deviceId := d, deviceName := none } }

/-- An EVENT payload with three device-state items and one lifecycle
CREATE item. -/
def threePlusOneEventData : EventData :=
  { authToken := "tok"
    installedApp := { installedAppId := "app-1", locationId := "loc-1" }
    events := [stateItem "d1", stateItem "d2", createItem "d9", stateItem "d3"] }

/-- An EVENT request carrying `threePlusOneEventData`. -/
def threePlusOneRequest : SmartAppRequest :=
  { emptyRequest with lifecycle := "EVENT", eventData := some threePlusOneEventData }

/-- A handler state that is installed with two registered devices. -/
def installedState : HandlerState :=
  { installedAppId := some "app-1", authToken := some "tok", refreshToken := some "ref"
    locationId := some "loc-1", deviceIds := ["d1", "d2"], stored := none }

/-- A request whose lifecycle discriminant is none of the seven kinds. -/
def unknownRequest : SmartAppRequest :=
  { emptyRequest with lifecycle := "EXECUTE" }

/-- A reference instant for the crash-loop examples. -/
def exampleNow : Int := 1000000000

/-- Crash events of kind `API_INIT_FAILURE` at the given numbers of
minutes before `exampleNow`. -/
def crashesAtMinutes (mins : List Nat) : List CrashEvent :=
  mins.map fun m => { timestamp := exampleNow - (m : Int) * 60000, errorType := "API_INIT_FAILURE" }

/-! ## Crash-log theorems -/

/-- One `recordPotentialCrash` call leaves the log at
`min (previous length + 1) MAX_LOG_ENTRIES` entries. -/
lemma recordPotentialCrash_length (l : List CrashEvent) (now : Int) (et : String) :
    (recordPotentialCrash l now et).length = min (l.length + 1) MAX_LOG_ENTRIES := by
  unfold recordPotentialCrash writeCrashLog MAX_LOG_ENTRIES
  split <;> rename_i h <;>
    simp only [List.length_drop, List.length_append, List.length_cons, List.length_nil] at h ⊢ <;>
    omega

/-- `recordPotentialCrash` keeps a suffix of the appended log, so only
the oldest entries (by position) are dropped. -/
lemma recordPotentialCrash_suffix (l : List CrashEvent) (now : Int) (et : String) :
    List.IsSuffix (recordPotentialCrash l now et) (l ++ [{ timestamp := now, errorType := et }]) := by
  unfold recordPotentialCrash writeCrashLog
  split
  · exact List.drop_suffix _ _
  · exact List.suffix_refl _

/-- Folding `recordPotentialCrash` over any events keeps the log within
the cap, provided it started within the cap. -/
lemma foldl_recordPotentialCrash_le (events : List (Int × String)) :
    ∀ l : List CrashEvent, l.length ≤ MAX_LOG_ENTRIES →
      (events.foldl (fun acc e => recordPotentialCrash acc e.1 e.2) l).length ≤ MAX_LOG_ENTRIES := by
  induction events with
  | nil => intro l h; simpa using h
  | cons e rest ih =>
      intro l h
      simp only [List.foldl_cons]
      apply ih
      rw [recordPotentialCrash_length]
      omega

/-- Claim C7: after any number of `recordPotentialCrash` calls the crash
log holds at most 20 entries, each call leaves exactly
`min (n + 1) 20` entries, and what is kept is always a suffix of the
appended log, so the oldest entries are the ones dropped. -/
theorem crashLog_bounded_oldest_dropped :
    MAX_LOG_ENTRIES = 20
    ∧ (∀ events : List (Int × String),
        (events.foldl (fun acc e => recordPotentialCrash acc e.1 e.2) []).length ≤ MAX_LOG_ENTRIES)
    ∧ (∀ (l : List CrashEvent) (now : Int) (et : String),
        (recordPotentialCrash l now et).length = min (l.length + 1) MAX_LOG_ENTRIES)
    ∧ (∀ (l : List CrashEvent) (now : Int) (et : String),
        List.IsSuffix (recordPotentialCrash l now et)
          (l ++ [{ timestamp := now, errorType := et }])) :=
  ⟨rfl, fun events => foldl_recordPotentialCrash_le events [] (by simp),
    recordPotentialCrash_length, recordPotentialCrash_suffix⟩

/-- Claim C2 counterexample: with `maxCrashes = 0` and an empty crash
log the relevant-count threshold (`0 ≥ 0`) is met, yet
`isCrashLoopDetected` returns `false` because of its empty-log early
return, so the stated iff fails at this input. -/
theorem crashLoop_maxCrashes_zero_cex :
    isCrashLoopDetected []
        { maxCrashes := 0, timeWindowMinutes := 15, relevantErrorTypes := [] } 0 = false
      ∧ ({ maxCrashes := 0, timeWindowMinutes := 15,
            relevantErrorTypes := [] : CrashLoopConfig }).maxCrashes ≤
          (relevantRecentCrashes []
            { maxCrashes := 0, timeWindowMinutes := 15, relevantErrorTypes := [] } 0).length := by
  decide

/-- Claim C2 (amended): provided `maxCrashes ≥ 1`, `isCrashLoopDetected`
returns true iff at least `maxCrashes` log entries lie in the trailing
window with a relevant error kind (any kind when the relevant set is
empty); with `defaultCrashLoopConfig` (5 crashes / 15 minutes), five
relevant entries at minutes 0,1,2,3,14 before now yield true and the
same entries with the last at minute 16 yield false. -/
theorem crashLoop_iff_threshold :
    (∀ (crashes : List CrashEvent) (config : CrashLoopConfig) (now : Int),
        1 ≤ config.maxCrashes →
        (isCrashLoopDetected crashes config now = true ↔
          config.maxCrashes ≤ (relevantRecentCrashes crashes config now).length))
    ∧ isCrashLoopDetected (crashesAtMinutes [0, 1, 2, 3, 14]) defaultCrashLoopConfig exampleNow = true
    ∧ isCrashLoopDetected (crashesAtMinutes [0, 1, 2, 3, 16]) defaultCrashLoopConfig exampleNow = false := by
  refine ⟨?_, by decide, by decide⟩
  intro crashes config now h
  unfold isCrashLoopDetected
  by_cases hc : crashes.isEmpty
  · have : crashes = [] := by simpa using hc
    subst this
    simp [relevantRecentCrashes]
    omega
  · simp [hc, ge_iff_le]

/-- Claim C2 witness: the amended iff applied at the concrete
five-crash example and the default configuration. -/
theorem crashLoop_iff_threshold_witness :
    1 ≤ defaultCrashLoopConfig.maxCrashes
      ∧ (isCrashLoopDetected (crashesAtMinutes [0, 1, 2, 3, 14]) defaultCrashLoopConfig exampleNow = true ↔
          defaultCrashLoopConfig.maxCrashes ≤
            (relevantRecentCrashes (crashesAtMinutes [0, 1, 2, 3, 14]) defaultCrashLoopConfig exampleNow).length) :=
  ⟨by decide,
    crashLoop_iff_threshold.1 (crashesAtMinutes [0, 1, 2, 3, 14]) defaultCrashLoopConfig exampleNow
      (by decide)⟩

/-! ## PING, malformed-body and unknown-lifecycle theorems -/

/-- Claim C8: a PING with a non-empty challenge is answered 200 with the
challenge echoed verbatim, a PING without `pingData` is answered 400,
and in all cases the handler state is untouched, no outbound call is
made, and the response does not depend on the handler state. -/
theorem ping_echoes_challenge :
    ∀ (st : HandlerState) (req : SmartAppRequest) (env : RemoteEnv),
      req.lifecycle = "PING" →
      ((∀ p, req.pingData = some p → p.challenge ≠ "" →
          (handleRequest st req env).response =
            { statusCode := 200, data := ResponseData.ping p.challenge })
        ∧ (req.pingData = none → (handleRequest st req env).response.statusCode = 400)
        ∧ (handleRequest st req env).state = st
        ∧ (handleRequest st req env).calls = []
        ∧ ∀ st' : HandlerState,
            (handleRequest st' req env).response = (handleRequest st req env).response) := by
  intro st req env hl
  have hb : (req.lifecycle == "PING") = true := by simp [hl]
  refine ⟨?_, ?_, ?_, ?_, ?_⟩ <;> simp [handleRequest, hb, emptyOutcome]
  · intro p hp hne
    simp [handlePing, hp, hne]
  · intro hp
    simp [handlePing, hp]

/-- Claim C8 witness: the PING theorem at a concrete request with
challenge `abc` and the fresh handler state. -/
theorem ping_echoes_challenge_witness :
    (handleRequest initialState pingRequest env0).response =
        { statusCode := 200, data := ResponseData.ping "abc" }
      ∧ (handleRequest initialState pingRequest env0).state = initialState :=
  ⟨(ping_echoes_challenge initialState pingRequest env0 rfl).1 { challenge := "abc" } rfl
      (by decide),
    (ping_echoes_challenge initialState pingRequest env0 rfl).2.2.1⟩

/-- Claim C9: a body that fails JSON parsing on the lifecycle endpoint
is answered 400 and leaves the handler state (in-memory credentials,
registration and the durable record alike) unchanged, with no outbound
call and no dispatched event. -/
theorem malformed_body_rejected_state_unchanged :
    ∀ (st : HandlerState) (configuredAppId : Option String) (env : RemoteEnv),
      (handleSmartAppRequest st configuredAppId none env).response.statusCode = 400
        ∧ (handleSmartAppRequest st configuredAppId none env).state = st
        ∧ (handleSmartAppRequest st configuredAppId none env).calls = []
        ∧ (handleSmartAppRequest st configuredAppId none env).dispatched = [] :=
  fun _ _ _ => ⟨rfl, rfl, rfl, rfl⟩

/-- Claim C10: a well-formed lifecycle message whose discriminant is not
one of the seven known kinds is answered with a bare 200 and produces no
state change, no outbound call and no dispatch. -/
theorem unknown_lifecycle_benign :
    ∀ (st : HandlerState) (req : SmartAppRequest) (env : RemoteEnv),
      req.lifecycle ∉
        (["PING", "CONFIRMATION", "CONFIGURATION", "INSTALL", "UPDATE", "EVENT",
          "UNINSTALL"] : List String) →
      handleRequest st req env = emptyOutcome st { statusCode := 200, data := ResponseData.empty } := by
  intro st req env h
  simp only [List.mem_cons, List.not_mem_nil, or_false, not_or] at h
  obtain ⟨h1, h2, h3, h4, h5, h6, h7⟩ := h
  have b1 : (req.lifecycle == "PING") = false := by simp [h1]
  have b2 : (req.lifecycle == "CONFIRMATION") = false := by simp [h2]
  have b3 : (req.lifecycle == "CONFIGURATION") = false := by simp [h3]
  have b4 : (req.lifecycle == "INSTALL") = false := by simp [h4]
  have b5 : (req.lifecycle == "UPDATE") = false := by simp [h5]
  have b6 : (req.lifecycle == "EVENT") = false := by simp [h6]
  have b7 : (req.lifecycle == "UNINSTALL") = false := by simp [h7]
  simp [handleRequest, b1, b2, b3, b4, b5, b6, b7]

/-- Claim C10 witness: the unknown-lifecycle theorem at a concrete
`EXECUTE` message. -/
theorem unknown_lifecycle_benign_witness :
    handleRequest initialState unknownRequest env0 =
      emptyOutcome initialState { statusCode := 200, data := ResponseData.empty } :=
  unknown_lifecycle_benign initialState unknownRequest env0 (by decide)

/-! ## Credential persistence theorems -/

/-- Claim C3 counterexample: an EVENT carrying fresh credentials handled
from the uninstalled state updates the in-memory credentials but leaves
the durable record absent — `handleEvent` never calls
`saveCredentials`, so the durable record disagrees with memory and the
credentials would not survive a restart. -/
theorem event_credentials_not_persisted_cex :
    (handleRequest initialState eventOnlyRequest env0).state.authToken = some "tok"
      ∧ (handleRequest initialState eventOnlyRequest env0).state.installedAppId = some "app-1"
      ∧ (handleRequest initialState eventOnlyRequest env0).state.stored = none := by
  decide

/-- Claim C3 (amended): INSTALL and UPDATE persist the new credentials
(the durable record equals the in-memory fields afterwards), UNINSTALL
clears both memory and the durable record, but EVENT updates credentials
in memory only and leaves the durable record untouched. -/
theorem credentials_persistence :
    ∀ (st : HandlerState) (req : SmartAppRequest) (env : RemoteEnv),
      (req.lifecycle = "INSTALL" → req.installData.isSome →
        (handleRequest st req env).state.stored =
          some (memCredentials (handleRequest st req env).state))
      ∧ (req.lifecycle = "UPDATE" → req.updateData.isSome →
          (handleRequest st req env).state.stored =
            some (memCredentials (handleRequest st req env).state))
      ∧ (req.lifecycle = "UNINSTALL" →
          (handleRequest st req env).state.stored = none
            ∧ memCredentials (handleRequest st req env).state =
                { installedAppId := none, authToken := none, refreshToken := none,
                  locationId := none })
      ∧ (req.lifecycle = "EVENT" → (handleRequest st req env).state.stored = st.stored) := by
  intro st req env
  refine ⟨?_, ?_, ?_, ?_⟩
  · intro hl hd
    have hb : (req.lifecycle == "INSTALL") = true := by simp [hl]
    have b1 : (req.lifecycle == "PING") = false := by simp [hl]
    have b2 : (req.lifecycle == "CONFIRMATION") = false := by simp [hl]
    have b3 : (req.lifecycle == "CONFIGURATION") = false := by simp [hl]
    rcases Option.isSome_iff_exists.mp hd with ⟨d, hdd⟩
    simp [handleRequest, hb, b1, b2, b3, handleInstall, hdd, saveCredentials, memCredentials]
  · intro hl hd
    have hb : (req.lifecycle == "UPDATE") = true := by simp [hl]
    have b1 : (req.lifecycle == "PING") = false := by simp [hl]
    have b2 : (req.lifecycle == "CONFIRMATION") = false := by simp [hl]
    have b3 : (req.lifecycle == "CONFIGURATION") = false := by simp [hl]
    have b4 : (req.lifecycle == "INSTALL") = false := by simp [hl]
    rcases Option.isSome_iff_exists.mp hd with ⟨d, hdd⟩
    simp [handleRequest, hb, b1, b2, b3, b4, handleUpdate, hdd, saveCredentials, memCredentials]
  · intro hl
    have hb : (req.lifecycle == "UNINSTALL") = true := by simp [hl]
    have b1 : (req.lifecycle == "PING") = false := by simp [hl]
    have b2 : (req.lifecycle == "CONFIRMATION") = false := by simp [hl]
    have b3 : (req.lifecycle == "CONFIGURATION") = false := by simp [hl]
    have b4 : (req.lifecycle == "INSTALL") = false := by simp [hl]
    have b5 : (req.lifecycle == "UPDATE") = false := by simp [hl]
    have b6 : (req.lifecycle == "EVENT") = false := by simp [hl]
    simp [handleRequest, hb, b1, b2, b3, b4, b5, b6, handleUninstall, clearCredentials,
      emptyOutcome, memCredentials]
  · intro hl
    have hb : (req.lifecycle == "EVENT") = true := by simp [hl]
    have b1 : (req.lifecycle == "PING") = false := by simp [hl]
    have b2 : (req.lifecycle == "CONFIRMATION") = false := by simp [hl]
    have b3 : (req.lifecycle == "CONFIGURATION") = false := by simp [hl]
    have b4 : (req.lifecycle == "INSTALL") = false := by simp [hl]
    have b5 : (req.lifecycle == "UPDATE") = false := by simp [hl]
    cases hed : req.eventData with
    | none => simp [handleRequest, hb, b1, b2, b3, b4, b5, handleEvent, hed, emptyOutcome]
    | some ed =>
        simp only [handleRequest, hb, b1, b2, b3, b4, b5, handleEvent, hed]
        cases h : (ed.authToken == "") <;> simp [h]

/-- Claim C3 witness: the amended persistence theorem applied at a
concrete INSTALL request. -/
theorem credentials_persistence_witness :
    (handleRequest initialState installRequest env0).state.stored =
      some (memCredentials (handleRequest initialState installRequest env0).state) :=
  (credentials_persistence initialState installRequest env0).1 rfl rfl

/-- Claim C5: repeating the same INSTALL is idempotent — the second call
leaves both the in-memory and the durable credentials exactly as the
first call left them, still answers 200, and a remote create answering
409 (already exists) completes without error. -/
theorem install_idempotent :
    ∀ (st : HandlerState) (req : SmartAppRequest) (env env2 : RemoteEnv),
      req.lifecycle = "INSTALL" → req.installData.isSome →
      (memCredentials (handleRequest (handleRequest st req env).state req env2).state =
          memCredentials (handleRequest st req env).state
        ∧ (handleRequest (handleRequest st req env).state req env2).state.stored =
            (handleRequest st req env).state.stored
        ∧ (handleRequest (handleRequest st req env).state req env2).response.statusCode = 200
        ∧ ∀ id, env2.createResult id = CreateResult.conflict →
            createDeviceSubscriptionOk env2 id = true) := by
  intro st req env env2 hl hd
  have hb : (req.lifecycle == "INSTALL") = true := by simp [hl]
  have b1 : (req.lifecycle == "PING") = false := by simp [hl]
  have b2 : (req.lifecycle == "CONFIRMATION") = false := by simp [hl]
  have b3 : (req.lifecycle == "CONFIGURATION") = false := by simp [hl]
  rcases Option.isSome_iff_exists.mp hd with ⟨d, hdd⟩
  refine ⟨?_, ?_, ?_, ?_⟩
  · simp [handleRequest, hb, b1, b2, b3, handleInstall, hdd, saveCredentials, memCredentials]
  · simp [handleRequest, hb, b1, b2, b3, handleInstall, hdd, saveCredentials]
  · simp [handleRequest, hb, b1, b2, b3, handleInstall, hdd]
  · intro id hc
    unfold createDeviceSubscriptionOk
    rw [hc]

/-- Claim C5 witness: install-twice idempotence at a concrete INSTALL
request, from the fresh state, with the second environment answering 409
to every create. -/
theorem install_idempotent_witness :
    memCredentials
        (handleRequest (handleRequest initialState installRequest env0).state installRequest
          { listResult := none, createResult := fun _ => CreateResult.conflict,
            lifecycleCreateResult := CreateResult.conflict, confirmOk := true }).state =
      memCredentials (handleRequest initialState installRequest env0).state :=
  (install_idempotent initialState installRequest env0
    { listResult := none, createResult := fun _ => CreateResult.conflict,
      lifecycleCreateResult := CreateResult.conflict, confirmOk := true } rfl rfl).1

/-! ## Reconciliation theorems -/

/-- A `listSubscriptions` entry contributes no create call. -/
lemma createCallCount_cons_list (calls : List RemoteCall) :
    createCallCount (RemoteCall.listSubscriptions :: calls) = createCallCount calls := by
  simp [createCallCount]

/-- A list of create calls counts its own length. -/
lemma createCallCount_map_create (l : List String) :
    createCallCount (l.map RemoteCall.createDevice) = l.length := by
  induction l with
  | nil => rfl
  | cons a t ih => simp [createCallCount, List.filter_cons] at ih ⊢; exact ih

/-- Claim C1: with credentials present and the remote list call
answering `subs`, one run of the missing-only reconciliation issues
exactly `|D \ R|` create calls, where `D` is the (duplicate-free)
registration set and `R` the projected remote DEVICE-subscription ids;
in particular zero create calls when `D ⊆ R`. -/
theorem sync_creates_exactly_missing :
    ∀ (st : HandlerState) (env : RemoteEnv) (subs : List RemoteSubscription),
      jsTruthy st.installedAppId = true → jsTruthy st.authToken = true →
      env.listResult = some subs → st.deviceIds.Nodup →
      (createCallCount (syncDeviceSubscriptions st env) =
          (st.deviceIds.toFinset \ (remoteDeviceIds subs).toFinset).card
        ∧ ((∀ id ∈ st.deviceIds, id ∈ remoteDeviceIds subs) →
            createCallCount (syncDeviceSubscriptions st env) = 0)) := by
  intro st env subs hA hT hL hN
  have key : createCallCount (syncDeviceSubscriptions st env) =
      (st.deviceIds.toFinset \ (remoteDeviceIds subs).toFinset).card := by
    unfold syncDeviceSubscriptions getExistingSubscriptions
    rw [hA, hT, hL]
    by_cases hE : st.deviceIds.isEmpty
    · have hnil : st.deviceIds = [] := by simpa using hE
      simp [hE, hnil, createCallCount]
    · have hfin : (st.deviceIds.filter fun id =>
          !(decide (id ∈ remoteDeviceIds subs))).toFinset =
            st.deviceIds.toFinset \ (remoteDeviceIds subs).toFinset := by
        ext a
        simp [List.mem_toFinset, List.mem_filter, Finset.mem_sdiff]
      have hnd : (st.deviceIds.filter fun id =>
          !(decide (id ∈ remoteDeviceIds subs))).Nodup := hN.filter _
      simp only [Bool.not_true, Bool.or_self, Bool.false_eq_true, if_false, hE,
        createCallCount_cons_list, createCallCount_map_create]
      rw [← List.toFinset_card_of_nodup hnd, hfin]
  refine ⟨key, fun hsub => ?_⟩
  rw [key]
  have hempty : st.deviceIds.toFinset \ (remoteDeviceIds subs).toFinset = ∅ :=
    Finset.sdiff_eq_empty_iff_subset.mpr fun a ha =>
      List.mem_toFinset.mpr (hsub a (List.mem_toFinset.mp ha))
  simp [hempty]

/-- Claim C1 witness: the reconciliation theorem at a state with devices
`d1, d2` and a remote set `{d2}`: exactly one create call, the size of
the set difference. -/
theorem sync_creates_exactly_missing_witness :
    createCallCount (syncDeviceSubscriptions installedState envListD2) =
      (installedState.deviceIds.toFinset \
        (remoteDeviceIds [{ sourceType := "DEVICE", deviceId := some "d2" }]).toFinset).card :=
  (sync_creates_exactly_missing installedState envListD2
    [{ sourceType := "DEVICE", deviceId := some "d2" }] (by decide) (by decide) rfl
    (by decide)).1

/-! ## Event-loop theorems -/

/-- One loop iteration dispatches one `ShortEvent` exactly for a
device-state item. -/
lemma processOneEvent_dispatched (env : RemoteEnv) (acc : EventAcc) (e : SmartThingsEvent) :
    (processOneEvent env acc e).dispatched.length =
      acc.dispatched.length + (if isDeviceStateItem e then 1 else 0) := by
  rcases e with ⟨et, de, dle⟩
  cases h1 : (et == "DEVICE_EVENT")
  · cases h2 : (et == "DEVICE_LIFECYCLE_EVENT")
    · simp [processOneEvent, isDeviceStateItem, h1, h2]
    · cases dle with
      | none => simp [processOneEvent, isDeviceStateItem, h1, h2]
      | some le =>
          cases h3 : (le.lifecycle == "CREATE")
          · simp [processOneEvent, isDeviceStateItem, h1, h2, h3]
          · cases h4 : createDeviceSubscriptionOk env le.deviceId <;>
              simp [processOneEvent, isDeviceStateItem, h1, h2, h3, h4]
  · cases de with
    | none => simp [processOneEvent, isDeviceStateItem, h1]
    | some d => simp [processOneEvent, isDeviceStateItem, h1]

/-- One loop iteration issues one subscription-create call exactly for a
lifecycle CREATE item. -/
lemma processOneEvent_createCalls (env : RemoteEnv) (acc : EventAcc) (e : SmartThingsEvent) :
    createCallCount (processOneEvent env acc e).calls =
      createCallCount acc.calls + (if isLifecycleCreateItem e then 1 else 0) := by
  rcases e with ⟨et, de, dle⟩
  cases h1 : (et == "DEVICE_EVENT")
  · cases h2 : (et == "DEVICE_LIFECYCLE_EVENT")
    · simp [processOneEvent, isLifecycleCreateItem, h1, h2]
    · cases dle with
      | none => simp [processOneEvent, isLifecycleCreateItem, h1, h2]
      | some le =>
          cases h3 : (le.lifecycle == "CREATE")
          · simp [processOneEvent, isLifecycleCreateItem, h1, h2, h3]
          · cases h4 : createDeviceSubscriptionOk env le.deviceId <;>
              simp [processOneEvent, isLifecycleCreateItem, h1, h2, h3, h4, createCallCount,
                List.filter_append]
  · cases de with
    | none =>
        simp [processOneEvent, isLifecycleCreateItem, h1]
        intro h
        subst h
        exact absurd h1 (by decide)
    | some d =>
        simp [processOneEvent, isLifecycleCreateItem, h1, createCallCount, List.filter_append]
        intro h
        subst h
        exact absurd h1 (by decide)

/-- The loop never removes a registered device id. -/
lemma processOneEvent_deviceIds_mono (env : RemoteEnv) (acc : EventAcc) (e : SmartThingsEvent)
    (x : String) (hx : x ∈ acc.deviceIds) : x ∈ (processOneEvent env acc e).deviceIds := by
  rcases e with ⟨et, de, dle⟩
  cases h1 : (et == "DEVICE_EVENT")
  · cases h2 : (et == "DEVICE_LIFECYCLE_EVENT")
    · simpa [processOneEvent, h1, h2] using hx
    · cases dle with
      | none => simpa [processOneEvent, h1, h2] using hx
      | some le =>
          cases h3 : (le.lifecycle == "CREATE")
          · simpa [processOneEvent, h1, h2, h3] using hx
          · cases h4 : createDeviceSubscriptionOk env le.deviceId
            · simpa [processOneEvent, h1, h2, h3, h4] using hx
            · simp [processOneEvent, h1, h2, h3, h4]
              exact Or.inl hx
  · cases de with
    | none => simpa [processOneEvent, h1] using hx
    | some d => simpa [processOneEvent, h1] using hx

/-- A lifecycle CREATE item whose create call does not throw appends the
new device id to the registration. -/
lemma processOneEvent_create_mem (env : RemoteEnv) (acc : EventAcc) (e : SmartThingsEvent)
    (le : DeviceLifecycleEventData) (h1 : e.eventType = "DEVICE_LIFECYCLE_EVENT")
    (h2 : e.deviceLifecycleEvent = some le) (h3 : le.lifecycle = "CREATE")
    (h4 : createDeviceSubscriptionOk env le.deviceId = true) :
    le.deviceId ∈ (processOneEvent env acc e).deviceIds := by
  rcases e with ⟨et, de, dle⟩
  simp only at h1 h2
  subst h1 h2
  simp [processOneEvent, h3, h4]

/-- The event loop dispatches exactly one `ShortEvent` per device-state
item. -/
lemma processEvents_dispatched (env : RemoteEnv) :
    ∀ (es : List SmartThingsEvent) (acc : EventAcc),
      (processEvents env acc es).dispatched.length =
        acc.dispatched.length + es.countP isDeviceStateItem := by
  intro es
  induction es with
  | nil => intro acc; simp [processEvents]
  | cons e rest ih =>
      intro acc
      rw [processEvents, ih, processOneEvent_dispatched, List.countP_cons]
      cases h : isDeviceStateItem e <;> simp [h] <;> omega

/-- The event loop issues exactly one create call per lifecycle CREATE
item. -/
lemma processEvents_createCalls (env : RemoteEnv) :
    ∀ (es : List SmartThingsEvent) (acc : EventAcc),
      createCallCount (processEvents env acc es).calls =
        createCallCount acc.calls + es.countP isLifecycleCreateItem := by
  intro es
  induction es with
  | nil => intro acc; simp [processEvents]
  | cons e rest ih =>
      intro acc
      rw [processEvents, ih, processOneEvent_createCalls, List.countP_cons]
      cases h : isLifecycleCreateItem e <;> simp [h] <;> omega

/-- The event loop never removes a registered device id. -/
lemma processEvents_deviceIds_mono (env : RemoteEnv) :
    ∀ (es : List SmartThingsEvent) (acc : EventAcc) (x : String),
      x ∈ acc.deviceIds → x ∈ (processEvents env acc es).deviceIds := by
  intro es
  induction es with
  | nil => intro acc x hx; simpa [processEvents] using hx
  | cons e rest ih =>
      intro acc x hx
      rw [processEvents]
      exact ih _ x (processOneEvent_deviceIds_mono env acc e x hx)

/-- Every lifecycle CREATE item of the list whose create call does not
throw ends with its device id registered. -/
lemma processEvents_create_mem (env : RemoteEnv) :
    ∀ (es : List SmartThingsEvent) (acc : EventAcc) (e : SmartThingsEvent)
      (le : DeviceLifecycleEventData),
      e ∈ es → e.eventType = "DEVICE_LIFECYCLE_EVENT" → e.deviceLifecycleEvent = some le →
      le.lifecycle = "CREATE" → createDeviceSubscriptionOk env le.deviceId = true →
      le.deviceId ∈ (processEvents env acc es).deviceIds := by
  intro es
  induction es with
  | nil => intro acc e le h; exact absurd h (List.not_mem_nil e)
  | cons e' rest ih =>
      intro acc e le hmem h1 h2 h3 h4
      rw [processEvents]
      rcases List.mem_cons.mp hmem with rfl | hmem'
      · exact processEvents_deviceIds_mono env rest _ le.deviceId
          (processOneEvent_create_mem env acc e le h1 h2 h3 h4)
      · exact ih _ e le hmem' h1 h2 h3 h4

/-- With credentials already present, `handleEvent` runs no pending
sync: its calls are exactly the loop's calls. -/
lemma handleEvent_calls_installed (st : HandlerState) (req : SmartAppRequest) (env : RemoteEnv)
    (ed : EventData) (hed : req.eventData = some ed) (hinst : isInstalled st = true) :
    (handleEvent st req env).calls =
      (processEvents env
        { deviceIds := st.deviceIds, calls := [], dispatched := [], notifs := [] }
        ed.events).calls := by
  cases h : (ed.authToken == "") <;> simp [handleEvent, hed, h, hinst]

/-- `handleEvent` dispatches exactly what the loop dispatches. -/
lemma handleEvent_dispatched_eq (st : HandlerState) (req : SmartAppRequest) (env : RemoteEnv)
    (ed : EventData) (hed : req.eventData = some ed) :
    (handleEvent st req env).dispatched =
      (processEvents env
        { deviceIds := st.deviceIds, calls := [], dispatched := [], notifs := [] }
        ed.events).dispatched := by
  cases h : (ed.authToken == "") <;> simp [handleEvent, hed, h]

/-- The registration after `handleEvent` is the loop's registration. -/
lemma handleEvent_deviceIds_eq (st : HandlerState) (req : SmartAppRequest) (env : RemoteEnv)
    (ed : EventData) (hed : req.eventData = some ed) :
    (handleEvent st req env).state.deviceIds =
      (processEvents env
        { deviceIds := st.deviceIds, calls := [], dispatched := [], notifs := [] }
        ed.events).deviceIds := by
  cases h : (ed.authToken == "") <;> simp [handleEvent, hed, h]

/-- Claim C6: an EVENT with three device-state items and one lifecycle
CREATE item, handled while credentials are present and with remote
creates succeeding, dispatches exactly 3 `ShortEvent`s, issues exactly 1
subscription-create call, and registers the CREATE'd device id. -/
theorem event_three_state_one_create :
    ∀ (st : HandlerState) (req : SmartAppRequest) (env : RemoteEnv) (ed : EventData),
      req.lifecycle = "EVENT" → req.eventData = some ed → isInstalled st = true →
      (∀ d, env.createResult d = CreateResult.ok) →
      ed.events.countP isDeviceStateItem = 3 →
      ed.events.countP isLifecycleCreateItem = 1 →
      ((handleRequest st req env).dispatched.length = 3
        ∧ createCallCount (handleRequest st req env).calls = 1
        ∧ ∀ e ∈ ed.events, ∀ le, e.deviceLifecycleEvent = some le →
            e.eventType = "DEVICE_LIFECYCLE_EVENT" → le.lifecycle = "CREATE" →
            le.deviceId ∈ (handleRequest st req env).state.deviceIds) := by
  intro st req env ed hl hed hinst hok h3 h1
  have hb : (req.lifecycle == "EVENT") = true := by simp [hl]
  have b1 : (req.lifecycle == "PING") = false := by simp [hl]
  have b2 : (req.lifecycle == "CONFIRMATION") = false := by simp [hl]
  have b3 : (req.lifecycle == "CONFIGURATION") = false := by simp [hl]
  have b4 : (req.lifecycle == "INSTALL") = false := by simp [hl]
  have b5 : (req.lifecycle == "UPDATE") = false := by simp [hl]
  have hred : handleRequest st req env = handleEvent st req env := by
    simp [handleRequest, hb, b1, b2, b3, b4, b5]
  rw [hred]
  refine ⟨?_, ?_, ?_⟩
  · rw [handleEvent_dispatched_eq st req env ed hed, processEvents_dispatched, h3]
    simp
  · rw [handleEvent_calls_installed st req env ed hed hinst, processEvents_createCalls, h1]
    simp [createCallCount]
  · intro e he le hle het hcr
    rw [handleEvent_deviceIds_eq st req env ed hed]
    refine processEvents_create_mem env ed.events _ e le he het hle hcr ?_
    unfold createDeviceSubscriptionOk
    rw [hok le.deviceId]

/-- Claim C6 witness: the theorem at a concrete 3+1 EVENT against an
installed state, with all creates succeeding. -/
theorem event_three_state_one_create_witness :
    (handleRequest installedState threePlusOneRequest env0).dispatched.length = 3
      ∧ createCallCount (handleRequest installedState threePlusOneRequest env0).calls = 1
      ∧ "d9" ∈ (handleRequest installedState threePlusOneRequest env0).state.deviceIds :=
  ⟨(event_three_state_one_create installedState threePlusOneRequest env0 threePlusOneEventData
      rfl rfl (by decide) (fun _ => rfl) (by decide) (by decide)).1,
    (event_three_state_one_create installedState threePlusOneRequest env0 threePlusOneEventData
      rfl rfl (by decide) (fun _ => rfl) (by decide) (by decide)).2.1,
    (event_three_state_one_create installedState threePlusOneRequest env0 threePlusOneEventData
      rfl rfl (by decide) (fun _ => rfl) (by decide) (by decide)).2.2
      (createItem "d9") (by decide)
      { lifecycle := "CREATE", deviceId := "d9", deviceName := none } rfl rfl rfl⟩

/-! ## Paired-credentials invariant -/

/-- Absent credentials are paired. -/
lemma credsOk_none : CredsOk none none := Or.inl ⟨rfl, rfl⟩

/-- Non-empty credentials are paired. -/
lemma credsOk_some (x y : String) (hx : x ≠ "") (hy : y ≠ "") :
    CredsOk (some x) (some y) :=
  Or.inr ⟨x, y, rfl, rfl, hx, hy⟩

/-- `jsStr` of a non-empty string is itself. -/
lemma jsStr_some_of_ne (a : String) (ha : a ≠ "") : jsStr (some a) = some a := by
  simp [jsStr, ha]

/-- Loading back paired credentials yields paired credentials. -/
lemma credsOk_jsStr (a t : Option String) (h : CredsOk a t) :
    CredsOk (jsStr a) (jsStr t) := by
  rcases h with ⟨h1, h2⟩ | ⟨x, y, h1, h2, hx, hy⟩
  · rw [h1, h2]
    exact credsOk_none
  · rw [h1, h2, jsStr_some_of_ne x hx, jsStr_some_of_ne y hy]
    exact credsOk_some x y hx hy

/-- The initial state satisfies the invariant. -/
lemma stateInv_initial : StateInv initialState := by
  constructor
  · exact credsOk_none
  · intro r hr
    simp [initialState, freshState] at hr

/-- A process restart preserves the invariant. -/
lemma stateInv_restart (st : HandlerState) (h : StateInv st) : StateInv (restartState st) := by
  cases hs : st.stored with
  | none =>
      constructor
      · simp only [restartState, loadCredentials, freshState, hs]
        exact credsOk_none
      · intro r hr
        simp [restartState, loadCredentials, freshState, hs] at hr
  | some r =>
      constructor
      · simp only [restartState, loadCredentials, freshState, hs]
        exact h.2 r hs
      · intro r' hr'
        simp [restartState, loadCredentials, freshState, hs] at hr'
        rw [← hr']
        exact h.2 r hs

/-- INSTALL with non-empty credential strings preserves the invariant. -/
lemma stateInv_handleInstall (st : HandlerState) (req : SmartAppRequest) (env : RemoteEnv)
    (hg : goodRequest req) (h : StateInv st) : StateInv (handleInstall st req env).state := by
  cases hd : req.installData with
  | none => simpa [handleInstall, hd, emptyOutcome] using h
  | some d =>
      obtain ⟨ha, hid⟩ := hg.1 d hd
      constructor
      · simp only [handleInstall, hd, saveCredentials]
        exact credsOk_some _ _ hid ha
      · intro r hr
        simp [handleInstall, hd, saveCredentials] at hr
        rw [← hr]
        rw [jsStr_some_of_ne _ hid, jsStr_some_of_ne _ ha]
        exact credsOk_some _ _ hid ha

/-- UPDATE with non-empty credential strings preserves the invariant. -/
lemma stateInv_handleUpdate (st : HandlerState) (req : SmartAppRequest) (env : RemoteEnv)
    (hg : goodRequest req) (h : StateInv st) : StateInv (handleUpdate st req env).state := by
  cases hd : req.updateData with
  | none => simpa [handleUpdate, hd, emptyOutcome] using h
  | some d =>
      obtain ⟨ha, hid⟩ := hg.2.1 d hd
      constructor
      · simp only [handleUpdate, hd, saveCredentials]
        exact credsOk_some _ _ hid ha
      · intro r hr
        simp [handleUpdate, hd, saveCredentials] at hr
        rw [← hr]
        rw [jsStr_some_of_ne _ hid, jsStr_some_of_ne _ ha]
        exact credsOk_some _ _ hid ha

/-- EVENT with a non-empty `installedAppId` preserves the invariant. -/
lemma stateInv_handleEvent (st : HandlerState) (req : SmartAppRequest) (env : RemoteEnv)
    (hg : goodRequest req) (h : StateInv st) : StateInv (handleEvent st req env).state := by
  cases hed : req.eventData with
  | none => simpa [handleEvent, hed, emptyOutcome] using h
  | some ed =>
      cases ht : (ed.authToken == "")
      · have hid := hg.2.2 ed hed
        have ha : ed.authToken ≠ "" := by simpa using ht
        constructor
        · simp only [handleEvent, hed, ht]
          exact credsOk_some _ _ hid ha
        · intro r hr
          simp [handleEvent, hed, ht] at hr
          exact h.2 r hr
      · constructor
        · simpa [handleEvent, hed, ht] using h.1
        · intro r hr
          simp [handleEvent, hed, ht] at hr
          exact h.2 r hr

/-- Every handled lifecycle request with well-formed (non-empty)
credential strings preserves the invariant. -/
lemma stateInv_handleRequest (st : HandlerState) (req : SmartAppRequest) (env : RemoteEnv)
    (hg : goodRequest req) (h : StateInv st) : StateInv (handleRequest st req env).state := by
  unfold handleRequest
  split
  · simpa [emptyOutcome] using h
  · split
    · exact h
    · split
      · simpa [emptyOutcome] using h
      · split
        · exact stateInv_handleInstall st req env hg h
        · split
          · exact stateInv_handleUpdate st req env hg h
          · split
            · exact stateInv_handleEvent st req env hg h
            · split
              · constructor
                · exact credsOk_none
                · intro r hr
                  simp [handleUninstall, clearCredentials, emptyOutcome] at hr
              · simpa [emptyOutcome] using h

/-- Every good step preserves the invariant. -/
lemma stateInv_applyStep (st : HandlerState) (s : HandlerStep) (hg : goodStep s)
    (h : StateInv st) : StateInv (applyStep st s) := by
  cases s with
  | lifecycleMsg req env => exact stateInv_handleRequest st req env hg h
  | setDevices ids => exact h
  | restart => exact stateInv_restart st h

/-- The invariant holds along every good trace. -/
lemma stateInv_runSteps :
    ∀ (steps : List HandlerStep) (st : HandlerState),
      (∀ s ∈ steps, goodStep s) → StateInv st → StateInv (runSteps st steps) := by
  intro steps
  induction steps with
  | nil => intro st _ h; exact h
  | cons s rest ih =>
      intro st hg h
      rw [runSteps]
      exact ih _ (fun x hx => hg x (List.mem_cons_of_mem s hx))
        (stateInv_applyStep st s (hg s (List.mem_cons_self s rest)) h)

/-- Claim C4 counterexample: an INSTALL whose `installedAppId` is the
empty string, followed by a process restart (construction reloads the
persisted record through `field || null`), reaches a state where
`authToken` is set but `installedAppId` is absent — the two are not set
together. -/
theorem credentials_unpaired_after_restart_cex :
    (runSteps initialState
        [HandlerStep.lifecycleMsg badInstallRequest env0, HandlerStep.restart]).authToken =
        some "tok"
      ∧ (runSteps initialState
          [HandlerStep.lifecycleMsg badInstallRequest env0,
            HandlerStep.restart]).installedAppId = none := by
  constructor
  · rfl
  · rfl

/-- Claim C4 (amended): in every state reachable from the initial state
by lifecycle messages whose credential payloads carry non-empty
`authToken` and `installedAppId` strings (plus registration calls and
restarts), `installedAppId` and `authToken` are either both set or both
absent, and the absence of either makes `isInstalled()` false. -/
theorem credentials_paired_invariant :
    ∀ steps : List HandlerStep, (∀ s ∈ steps, goodStep s) →
      (((runSteps initialState steps).installedAppId = none ↔
          (runSteps initialState steps).authToken = none)
        ∧ (((runSteps initialState steps).installedAppId = none ∨
              (runSteps initialState steps).authToken = none) →
            isInstalled (runSteps initialState steps) = false)) := by
  intro steps hg
  have h := stateInv_runSteps steps initialState hg stateInv_initial
  rcases h.1 with ⟨h1, h2⟩ | ⟨x, y, h1, h2, hx, hy⟩
  · refine ⟨⟨fun _ => h2, fun _ => h1⟩, fun _ => ?_⟩
    unfold isInstalled
    rw [h1]
    rfl
  · refine ⟨⟨fun hc => ?_, fun hc => ?_⟩, fun hc => ?_⟩
    · rw [h1] at hc
      simp at hc
    · rw [h2] at hc
      simp at hc
    · rcases hc with hc | hc
      · rw [h1] at hc
        simp at hc
      · rw [h2] at hc
        simp at hc

/-- The concrete INSTALL request used in witnesses is well-formed. -/
lemma goodRequest_installRequest : goodRequest installRequest := by
  refine ⟨?_, ?_, ?_⟩
  · intro d hd
    simp [installRequest, emptyRequest] at hd
    rw [← hd]
    exact ⟨by decide, by decide⟩
  · intro d hd
    simp [installRequest, emptyRequest] at hd
  · intro ed hed
    simp [installRequest, emptyRequest] at hed

/-- Claim C4 witness: the paired-credentials invariant applied to the
concrete trace of one well-formed INSTALL followed by a restart. -/
theorem credentials_paired_invariant_witness :
    ((runSteps initialState
          [HandlerStep.lifecycleMsg installRequest env0, HandlerStep.restart]).installedAppId =
          none ↔
        (runSteps initialState
          [HandlerStep.lifecycleMsg installRequest env0, HandlerStep.restart]).authToken = none)
      ∧ (((runSteps initialState
              [HandlerStep.lifecycleMsg installRequest env0,
                HandlerStep.restart]).installedAppId = none ∨
            (runSteps initialState
              [HandlerStep.lifecycleMsg installRequest env0, HandlerStep.restart]).authToken =
              none) →
          isInstalled
              (runSteps initialState
                [HandlerStep.lifecycleMsg installRequest env0, HandlerStep.restart]) =
            false) :=
  credentials_paired_invariant
    [HandlerStep.lifecycleMsg installRequest env0, HandlerStep.restart]
    (by
      intro s hs
      rcases List.mem_cons.mp hs with rfl | hs'
      · exact goodRequest_installRequest
      · rcases List.mem_cons.mp hs' with rfl | hs''
        · trivial
        · exact absurd hs'' (List.not_mem_nil s))

end STW
